import Mathlib

/-!
Verification of the `https-proxy-tunnel` repository core: the DNS
resolution cache (`src/dns_resolver.rs`) and the TCP/HTTP-CONNECT tunnel
handlers (`src/tunnel.rs`), shallowly embedded in Lean.

Modelling conventions:
* `Instant` (Rust monotonic time) is a `Nat`; `Duration` (the TTL, built
  with `Duration::from_secs`) is a `Nat`.  Each cache operation receives
  the current instant `now` as an explicit argument in place of its
  internal `Instant::now()` call; one `resolve_domain` call uses a single
  instant for its internal steps.
* The `HashMap<String, DNSRecord>` behind the `RwLock` is embedded as the
  map `String → Option DNSRecord` (its observable lookup function); the
  lock itself has no sequential content.
* The upstream resolver (`trust_dns_resolver`) and the network are
  external collaborators: their answers enter as explicit arguments.
-/

/-- IPv4 address (`std::net::Ipv4Addr`): four octets. -/
structure Ipv4Addr where
  a : Nat
  b : Nat
  c : Nat
  d : Nat
deriving DecidableEq, Repr

/-- IPv6 address (`std::net::Ipv6Addr`): eight 16-bit groups. -/
structure Ipv6Addr where
  groups : List Nat
deriving DecidableEq, Repr

/-- `std::net::IpAddr`. -/
inductive IpAddr where
  | v4 : Ipv4Addr → IpAddr
  | v6 : Ipv6Addr → IpAddr
deriving DecidableEq, Repr

/-- `src/dns_resolver.rs` lines 9-12: a cached record, `ip` plus the
instant `valid_until` after which it is stale. -/
structure DNSRecord where
  ip : List IpAddr
  valid_until : Nat
deriving DecidableEq, Repr

/-- `src/dns_resolver.rs` lines 14-19: the resolver state observable from
the cache operations — the record map and the fixed TTL.  The
`tokio_resolver` field is the external upstream collaborator and carries
no state relevant to the cache. -/
structure DNSResolver where
  records : String → Option DNSRecord
  ttl : Nat

/-- Upstream failure as surfaced by `resolve_domain`
(`Error::new(ErrorKind::Other, err)`): the claims only need the error to
be a value, so it is carried as the error message string. -/
abbrev ResolveError := String

deriving instance DecidableEq for Except

/-- `check_cache` (`src/dns_resolver.rs` lines 35-43): return a copy of
the cached addresses when a record exists and `record.valid_until >
Instant::now()`; never mutates the state. -/
def check_cache (r : DNSResolver) (now : Nat) (domain : String) :
    Option (List IpAddr) :=
  match r.records domain with
  | some record => if now < record.valid_until then some record.ip else none
  | none => none

/-- `update_cache` (`src/dns_resolver.rs` lines 45-54): insert (or
overwrite) the record for `domain` with `valid_until = Instant::now() +
self.ttl`. -/
def update_cache (r : DNSResolver) (now : Nat) (domain : String)
    (ip : List IpAddr) : DNSResolver :=
  { r with records := fun k =>
      if k = domain then some { ip := ip, valid_until := now + r.ttl }
      else r.records k }

/-- `cleanup_expired_records` (`src/dns_resolver.rs` lines 56-59):
`records.retain(|_, record| record.valid_until > Instant::now())`. -/
def cleanup_expired_records (r : DNSResolver) (now : Nat) : DNSResolver :=
  { r with records := fun k =>
      match r.records k with
      | some record =>
          if now < record.valid_until then some record else none
      | none => none }

/-- `resolve_domain` (`src/dns_resolver.rs` lines 61-79).  The upstream
answer `lookup_ip` would give for this call is passed in as `upstream`;
the returned pair is (result, state after the call). -/
def resolve_domain (r : DNSResolver) (now : Nat) (domain : String)
    (upstream : Except ResolveError (List IpAddr)) :
    Except ResolveError (List IpAddr) × DNSResolver :=
  let r1 := cleanup_expired_records r now
  match check_cache r1 now domain with
  | some ip => (.ok ip, r1)
  | none =>
    match upstream with
    | .ok resolved_ips =>
        if resolved_ips.isEmpty then (.ok resolved_ips, r1)
        else (.ok resolved_ips, update_cache r1 now domain resolved_ips)
    | .error err => (.error err, r1)

/-- The invariant of claim C7: every record present in the map holds at
least one address. -/
def CacheNonempty (r : DNSResolver) : Prop :=
  ∀ k rec, r.records k = some rec → rec.ip ≠ []

/-- A concrete address for witnesses: `127.0.0.1`. -/
def ip127 : IpAddr := .v4 ⟨127, 0, 0, 1⟩

/-- A resolver with an empty cache and TTL 10, for witnesses. -/
def emptyResolver : DNSResolver := { records := fun _ => none, ttl := 10 }

/-- A resolver holding one record for `"a"` that expires at instant 5,
with TTL 10, for counterexamples. -/
def staleResolver : DNSResolver :=
  { records := fun k =>
      if k = "a" then some { ip := [ip127], valid_until := 5 } else none,
    ttl := 10 }

/-! ## Tunnel embedding (`src/tunnel.rs`)

The per-connection handlers are embedded as pure functions of the bytes
returned by the first `read` on the client socket, plus oracles for the
outcome of the outbound `TcpStream::connect` and of the relay phase.
Each handler returns the ordered list of externally visible actions it
performs (outbound dial attempts, bytes written back to the client, entry
into the relay) together with its `io::Result` value.  The string
machinery the handlers call — `str::from_utf8`, `SocketAddr::from_str`,
`str::lines`, `str::split_whitespace` — is modelled from the Rust
standard library implementations these calls resolve to. -/

/-- `std::net::SocketAddrV4`: an IPv4 address and a port. -/
structure SocketAddrV4 where
  ip : Ipv4Addr
  port : Nat
deriving DecidableEq, Repr

/-- `std::net::SocketAddrV6`: an IPv6 address, a port and a scope id. -/
structure SocketAddrV6 where
  ip : Ipv6Addr
  port : Nat
  scope_id : Nat
deriving DecidableEq, Repr

/-- `std::net::SocketAddr`. -/
inductive SocketAddr where
  | v4 : SocketAddrV4 → SocketAddr
  | v6 : SocketAddrV6 → SocketAddr
deriving DecidableEq, Repr

/-- `char::to_digit(radix)`: decimal/hex digit value, defined only below
the radix. -/
def charToDigit (radix : Nat) (c : Char) : Option Nat :=
  let d : Option Nat :=
    if '0' ≤ c ∧ c ≤ '9' then some (c.toNat - '0'.toNat)
    else if 'a' ≤ c ∧ c ≤ 'z' then some (c.toNat - 'a'.toNat + 10)
    else if 'A' ≤ c ∧ c ≤ 'Z' then some (c.toNat - 'A'.toNat + 10)
    else none
  match d with
  | some v => if v < radix then some v else none
  | none => none

/-- `Parser::read_given_char` from `core::net::parser`: consume exactly
the given character. -/
def read_given_char (c : Char) : List Char → Option (Unit × List Char)
  | [] => none
  | x :: rest => if x = c then some ((), rest) else none

/-- The digit loop of `Parser::read_number`: greedily consume digits,
failing (as `checked_mul`/`checked_add` on the target integer type do) if
the accumulator would exceed `tmax` or the digit count would exceed
`maxDigits`. -/
def readNumberLoop (radix tmax : Nat) (maxDigits : Option Nat) :
    Nat → Nat → List Char → Option (Nat × Nat × List Char)
  | acc, digitCount, [] => some (acc, digitCount, [])
  | acc, digitCount, c :: rest =>
    match charToDigit radix c with
    | none => some (acc, digitCount, c :: rest)
    | some d =>
        let acc2 := acc * radix + d
        if tmax < acc2 then none
        else
          match maxDigits with
          | some m =>
              if m < digitCount + 1 then none
              else readNumberLoop radix tmax maxDigits acc2 (digitCount + 1) rest
          | none => readNumberLoop radix tmax maxDigits acc2 (digitCount + 1) rest

/-- `Parser::read_number`: at least one digit, no leading zero unless
`allowZeroPrefix`, value bounded by the maximum of the target type `tmax`. -/
def read_number (radix : Nat) (maxDigits : Option Nat)
    (allowZeroPrefix : Bool) (tmax : Nat) (s : List Char) :
    Option (Nat × List Char) :=
  let hasLeadingZero : Bool := match s with
    | c :: _ => c = '0'
    | [] => false
  match readNumberLoop radix tmax maxDigits 0 0 s with
  | none => none
  | some (acc, dc, rest) =>
      if dc = 0 then none
      else if allowZeroPrefix = false ∧ hasLeadingZero = true ∧ 1 < dc then
        none
      else some (acc, rest)

/-- `Parser::read_separator`: read the separator before every group but
the first, then the inner item; fails atomically. -/
def read_separator {α : Type} (sep : Char) (index : Nat)
    (inner : List Char → Option (α × List Char)) (s : List Char) :
    Option (α × List Char) :=
  if index = 0 then inner s
  else
    match read_given_char sep s with
    | some (_, s1) => inner s1
    | none => none

/-- `Parser::read_ipv4_addr`: four `u8` groups (max three digits, no
leading zeros) separated by dots. -/
def read_ipv4_addr (s : List Char) : Option (Ipv4Addr × List Char) :=
  match read_number 10 (some 3) false 255 s with
  | none => none
  | some (g0, s0) =>
    match read_given_char '.' s0 with
    | none => none
    | some (_, s1) =>
      match read_number 10 (some 3) false 255 s1 with
      | none => none
      | some (g1, s2) =>
        match read_given_char '.' s2 with
        | none => none
        | some (_, s3) =>
          match read_number 10 (some 3) false 255 s3 with
          | none => none
          | some (g2, s4) =>
            match read_given_char '.' s4 with
            | none => none
            | some (_, s5) =>
              match read_number 10 (some 3) false 255 s5 with
              | none => none
              | some (g3, s6) => some (⟨g0, g1, g2, g3⟩, s6)

/-- The `read_groups` helper of `Parser::read_ipv6_addr`: read up to
`remaining` colon-separated 16-bit hex groups, allowing a trailing
embedded IPv4 address when at least two slots remain; returns the groups
read, whether an embedded IPv4 address ended the run, and the rest of the
input. -/
def readGroupsAux : Nat → Nat → List Nat → List Char →
    List Nat × Bool × List Char
  | 0, _, acc, s => (acc, false, s)
  | remaining + 1, index, acc, s =>
      let v4try : Option (Ipv4Addr × List Char) :=
        if 1 ≤ remaining then read_separator ':' index read_ipv4_addr s
        else none
      match v4try with
      | some (v4, rest) =>
          (acc ++ [v4.a * 256 + v4.b, v4.c * 256 + v4.d], true, rest)
      | none =>
          match read_separator ':' index
              (read_number 16 (some 4) true 65535) s with
          | some (g, rest) =>
              readGroupsAux remaining (index + 1) (acc ++ [g]) rest
          | none => (acc, false, s)

/-- `Parser::read_ipv6_addr`: up to eight groups, one optional `::`
compression marking one or more zero groups, no embedded IPv4 before the
compression. -/
def read_ipv6_addr (s : List Char) : Option (Ipv6Addr × List Char) :=
  match readGroupsAux 8 0 [] s with
  | (head, headV4, s1) =>
    if head.length = 8 then some (⟨head⟩, s1)
    else if headV4 then none
    else
      match read_given_char ':' s1 with
      | none => none
      | some (_, s2) =>
        match read_given_char ':' s2 with
        | none => none
        | some (_, s3) =>
          match readGroupsAux (8 - (head.length + 1)) 0 [] s3 with
          | (tail, _, s4) =>
            some (⟨head ++ List.replicate (8 - head.length - tail.length) 0
              ++ tail⟩, s4)

/-- `Parser::read_port`: `':'` then a `u16` (zero prefix allowed). -/
def read_port (s : List Char) : Option (Nat × List Char) :=
  match read_given_char ':' s with
  | none => none
  | some (_, s1) => read_number 10 none true 65535 s1

/-- `Parser::read_scope_id`: `'%'` then a `u32` (zero prefix allowed). -/
def read_scope_id (s : List Char) : Option (Nat × List Char) :=
  match read_given_char '%' s with
  | none => none
  | some (_, s1) => read_number 10 none true 4294967295 s1

/-- `Parser::read_socket_addr_v4`: IPv4 address then port. -/
def read_socket_addr_v4 (s : List Char) :
    Option (SocketAddrV4 × List Char) :=
  match read_ipv4_addr s with
  | none => none
  | some (ip, s1) =>
      match read_port s1 with
      | none => none
      | some (p, s2) => some (⟨ip, p⟩, s2)

/-- `Parser::read_socket_addr_v6`: `'['`, IPv6 address, optional scope
id, `']'`, then port. -/
def read_socket_addr_v6 (s : List Char) :
    Option (SocketAddrV6 × List Char) :=
  match read_given_char '[' s with
  | none => none
  | some (_, s1) =>
      match read_ipv6_addr s1 with
      | none => none
      | some (ip, s2) =>
          match
            (match read_scope_id s2 with
              | some (sc, s3) => (sc, s3)
              | none => (0, s2)) with
          | (scope, s3) =>
              match read_given_char ']' s3 with
              | none => none
              | some (_, s4) =>
                  match read_port s4 with
                  | none => none
                  | some (p, s5) => some (⟨ip, p, scope⟩, s5)

/-- `Parser::read_socket_addr`: IPv4 form, or else IPv6 form. -/
def read_socket_addr (s : List Char) : Option (SocketAddr × List Char) :=
  match read_socket_addr_v4 s with
  | some (a, rest) => some (.v4 a, rest)
  | none =>
      match read_socket_addr_v6 s with
      | some (a, rest) => some (.v6 a, rest)
      | none => none

/-- `"...".parse::<SocketAddr>()` (`FromStr` via `Parser::parse_with`):
the whole input must be consumed. -/
def parseSocketAddr (s : List Char) : Option SocketAddr :=
  match read_socket_addr s with
  | some (a, []) => some a
  | _ => none

/-- Continuation byte of a UTF-8 sequence: `0x80..=0xBF`. -/
def isUtf8Cont (b : Nat) : Bool := decide (128 ≤ b ∧ b ≤ 191)

/-- Lower bound of the second byte of a multi-byte UTF-8 sequence
(`0xE0` and `0xF0` exclude overlong encodings). -/
def utf8SecondLo (b : Nat) : Nat :=
  if b = 224 then 160 else if b = 240 then 144 else 128

/-- Upper bound of the second byte of a multi-byte UTF-8 sequence
(`0xED` excludes surrogates, `0xF4` caps at `U+10FFFF`). -/
def utf8SecondHi (b : Nat) : Nat :=
  if b = 237 then 159 else if b = 244 then 143 else 191

/-- `str::from_utf8` (`core::str::run_utf8_validation`) together with the
decoding the resulting `&str` denotes: `some` of the scalar-value
sequence on valid UTF-8, `none` on invalid UTF-8. -/
def utf8Decode : List Nat → Option (List Char)
  | [] => some []
  | b :: rest =>
    if b ≤ 127 then
      match utf8Decode rest with
      | some cs => some (Char.ofNat b :: cs)
      | none => none
    else if 194 ≤ b ∧ b ≤ 223 then
      match rest with
      | b1 :: rest1 =>
          if isUtf8Cont b1 then
            match utf8Decode rest1 with
            | some cs => some (Char.ofNat ((b - 192) * 64 + (b1 - 128)) :: cs)
            | none => none
          else none
      | [] => none
    else if 224 ≤ b ∧ b ≤ 239 then
      match rest with
      | b1 :: b2 :: rest1 =>
          if utf8SecondLo b ≤ b1 ∧ b1 ≤ utf8SecondHi b ∧ isUtf8Cont b2 = true
          then
            match utf8Decode rest1 with
            | some cs =>
                some (Char.ofNat
                  ((b - 224) * 4096 + (b1 - 128) * 64 + (b2 - 128)) :: cs)
            | none => none
          else none
      | _ => none
    else if 240 ≤ b ∧ b ≤ 244 then
      match rest with
      | b1 :: b2 :: b3 :: rest1 =>
          if utf8SecondLo b ≤ b1 ∧ b1 ≤ utf8SecondHi b ∧
              isUtf8Cont b2 = true ∧ isUtf8Cont b3 = true then
            match utf8Decode rest1 with
            | some cs =>
                some (Char.ofNat ((b - 240) * 262144 + (b1 - 128) * 4096 +
                  (b2 - 128) * 64 + (b3 - 128)) :: cs)
            | none => none
          else none
      | _ => none
    else none

/-- `char::is_whitespace`: the Unicode `White_Space` code points. -/
def isRustWhitespace (c : Char) : Bool :=
  ([9, 10, 11, 12, 13, 32, 133, 160, 5760,
    8192, 8193, 8194, 8195, 8196, 8197, 8198, 8199, 8200, 8201, 8202,
    8232, 8233, 8239, 8287, 12288] : List Nat).contains c.toNat

/-- Strip one trailing `'\r'`, as the closure inside `str::lines` does
after stripping the `'\n'`. -/
def stripTrailingCr (l : List Char) : List Char :=
  match l.getLast? with
  | some c => if c = '\r' then l.dropLast else l
  | none => l

/-- `request.lines().next()`: `none` on the empty string; otherwise the
first line — the characters before the first `'\n'`, with one trailing
`'\r'` stripped when the line was `'\n'`-terminated. -/
def rustLinesNext (s : List Char) : Option (List Char) :=
  match s with
  | [] => none
  | _ :: _ =>
      let line := s.takeWhile (fun c => c ≠ '\n')
      if s.contains '\n' then some (stripTrailingCr line) else some line

/-- The accumulator loop of `str::split_whitespace`: tokens are the
maximal runs of non-whitespace characters. -/
def splitWsAux : List Char → List Char → List (List Char)
  | [], cur => if cur.isEmpty then [] else [cur.reverse]
  | c :: rest, cur =>
      if isRustWhitespace c then
        if cur.isEmpty then splitWsAux rest []
        else cur.reverse :: splitWsAux rest []
      else splitWsAux rest (c :: cur)

/-- `str::split_whitespace` as a token list. -/
def split_whitespace (l : List Char) : List (List Char) := splitWsAux l []

/-- `parse_http_connect_request` (`src/tunnel.rs` lines 93-99): the
second whitespace-delimited token of the first line of the request, if
any. -/
def parse_http_connect_request (request : List Char) : Option String :=
  match rustLinesNext request with
  | none => none
  | some line =>
      match (split_whitespace line).get? 1 with
      | some tok => some (String.mk tok)
      | none => none

/-- The bytes of a Lean string, for concrete wire inputs. -/
def strBytes (s : String) : List Nat := s.data.map Char.toNat

/-- The fixed CONNECT success response
(`src/tunnel.rs` line 86). -/
def http200Response : List Nat :=
  strBytes "HTTP/1.1 200 Connection Established\r\n\r\n"

/-- How a per-connection handler can terminate abnormally:
`protocolError` covers the two `InvalidData`/`InvalidInput` parse errors,
`dialError` a failed outbound `TcpStream::connect`, `relayError` an I/O
failure during the relay, and `panicked` the `.unwrap()` panic in
`handle_http_connect` on invalid UTF-8. -/
inductive TunnelError where
  | protocolError
  | dialError
  | relayError
  | panicked
deriving DecidableEq, Repr

/-- Externally visible actions of `handle_tcp`, in order: an outbound
connect attempt to a parsed socket address, and entry into the
bidirectional relay.  `handle_tcp` never writes to the client before the
relay. -/
inductive RawEvent where
  | dial : SocketAddr → RawEvent
  | relay : RawEvent
deriving DecidableEq, Repr

/-- Externally visible actions of `handle_http_connect`, in order: an
outbound connect attempt to the target `host:port` string, bytes written
back to the client, and entry into the relay. -/
inductive HttpEvent where
  | dial : String → HttpEvent
  | writeClient : List Nat → HttpEvent
  | relay : HttpEvent
deriving DecidableEq, Repr

/-- `handle_tcp` (`src/tunnel.rs` lines 28-70) as a function of the bytes
of the first read (`n = firstRead.length`), an oracle `dialOk` for the
outbound `TcpStream::connect`, and an oracle `relayOk` for the relay
outcome; returns the ordered action list and the result of the handler. -/
def handle_tcp (firstRead : List Nat) (dialOk relayOk : Bool) :
    List RawEvent × Except TunnelError Unit :=
  if firstRead.isEmpty then ([], .ok ())
  else
    match utf8Decode firstRead with
    | none => ([], .error .protocolError)
    | some destination =>
        match parseSocketAddr destination with
        | none => ([], .error .protocolError)
        | some dest_server_addr =>
            if dialOk then
              ([.dial dest_server_addr, .relay],
                if relayOk then .ok () else .error .relayError)
            else ([.dial dest_server_addr], .error .dialError)

/-- `handle_http_connect` (`src/tunnel.rs` lines 72-90) as a function of
the bytes of the first read and the dial/relay oracles.  Note the source
has no `n == 0` early return here, and calls `.unwrap()` on
`str::from_utf8`, so invalid UTF-8 panics the task. -/
def handle_http_connect (firstRead : List Nat) (dialOk relayOk : Bool) :
    List HttpEvent × Except TunnelError Unit :=
  match utf8Decode firstRead with
  | none => ([], .error .panicked)
  | some request_str =>
      match parse_http_connect_request request_str with
      | none => ([], .error .protocolError)
      | some target_address =>
          if dialOk then
            ([.dial target_address, .writeClient http200Response, .relay],
              if relayOk then .ok () else .error .relayError)
          else ([.dial target_address], .error .dialError)

/-- The raw-mode target `handle_tcp` would parse from the first read. -/
def rawTarget (firstRead : List Nat) : Option SocketAddr :=
  match utf8Decode firstRead with
  | some cs => parseSocketAddr cs
  | none => none

/-- The CONNECT-mode target `handle_http_connect` would parse from the
first read. -/
def connectTarget (firstRead : List Nat) : Option String :=
  match utf8Decode firstRead with
  | some cs => parse_http_connect_request cs
  | none => none

/-! ## Helper lemmas for the cache invariant -/

lemma cacheNonempty_update_cache (r : DNSResolver) (now : Nat)
    (domain : String) (ip : List IpAddr) (hip : ip ≠ [])
    (hinv : CacheNonempty r) :
    CacheNonempty (update_cache r now domain ip) := by
  intro k rec h
  simp only [update_cache] at h
  by_cases hk : k = domain
  · simp only [hk, if_pos rfl] at h
    cases h
    simpa using hip
  · simp only [if_neg hk] at h
    exact hinv k rec h

lemma cacheNonempty_cleanup (r : DNSResolver) (now : Nat)
    (hinv : CacheNonempty r) :
    CacheNonempty (cleanup_expired_records r now) := by
  intro k rec h
  simp only [cleanup_expired_records] at h
  cases hk : r.records k with
  | none => rw [hk] at h; exact Option.noConfusion h
  | some rec' =>
      rw [hk] at h
      dsimp only at h
      by_cases hv : now < rec'.valid_until
      · rw [if_pos hv] at h
        injection h with h2
        subst h2
        exact hinv k rec' hk
      · rw [if_neg hv] at h
        exact Option.noConfusion h

lemma check_cache_ne_some_nil (r : DNSResolver) (now : Nat) (domain : String)
    (hinv : CacheNonempty r) :
    check_cache r now domain ≠ some [] := by
  simp only [check_cache]
  cases hk : r.records domain with
  | none => simp
  | some rec =>
      dsimp only
      by_cases hv : now < rec.valid_until
      · rw [if_pos hv]
        intro h
        injection h with h2
        exact hinv domain rec hk h2
      · rw [if_neg hv]
        simp

/-! ## Theorems for the claims -/

/-- C1: `resolve_domain` performs exactly the documented steps in order:
it first runs `cleanup_expired_records`; if `check_cache` then hits it
returns the cached set with no further state change; otherwise it consults
the upstream service, and on upstream success returns the upstream result,
writing it through `update_cache` exactly when it is non-empty, while an
empty upstream result is returned without being cached. -/
theorem c1_resolve_domain_steps (r : DNSResolver) (now : Nat)
    (domain : String) (upstream : Except ResolveError (List IpAddr)) :
    (∀ ip, check_cache (cleanup_expired_records r now) now domain = some ip →
      resolve_domain r now domain upstream =
        (.ok ip, cleanup_expired_records r now)) ∧
    (check_cache (cleanup_expired_records r now) now domain = none →
      (∀ ips, upstream = .ok ips → ips ≠ [] →
        resolve_domain r now domain upstream =
          (.ok ips, update_cache (cleanup_expired_records r now) now domain ips)) ∧
      (upstream = .ok [] →
        resolve_domain r now domain upstream =
          (.ok [], cleanup_expired_records r now)) ∧
      (∀ e, upstream = .error e →
        resolve_domain r now domain upstream =
          (.error e, cleanup_expired_records r now))) := by
  constructor
  · intro ip h
    simp [resolve_domain, h]
  · intro h
    refine ⟨?_, ?_, ?_⟩
    · intro ips hup hne
      subst hup
      cases ips with
      | nil => exact absurd rfl hne
      | cons a t => simp [resolve_domain, h]
    · intro hup
      subst hup
      simp [resolve_domain, h]
    · intro e hup
      subst hup
      simp [resolve_domain, h]

/-- Witness for C1 at a concrete input: an empty cache, a non-empty
upstream answer, so the miss-and-update branch fires. -/
theorem c1_resolve_domain_steps_witness :
    resolve_domain emptyResolver 0 "x" (.ok [ip127]) =
      (.ok [ip127],
        update_cache (cleanup_expired_records emptyResolver 0) 0 "x" [ip127]) :=
  ((c1_resolve_domain_steps emptyResolver 0 "x" (.ok [ip127])).2
    (by decide)).1 [ip127] rfl (by decide)

/-- C2 counterexample: `resolve_domain` can succeed with the empty address
set (empty upstream answer), and the immediately following `check_cache`
— same instant, no intervening operation, TTL window 10 — returns `none`,
not `some []`: the claim "check returns the same address set that resolve
returned" fails for a successful empty resolution. -/
theorem c2_resolve_then_check_counterexample :
    (resolve_domain emptyResolver 0 "x" (.ok [])).1 = .ok [] ∧
    check_cache (resolve_domain emptyResolver 0 "x" (.ok [])).2 0 "x" ≠
      some [] := by
  constructor
  · rfl
  · decide

/-- C2 amended: a `resolve_domain` that succeeds with a *non-empty*
address set `ips`, immediately followed (same instant, no intervening
operations) by `check_cache`, with a positive TTL, yields `some ips`. -/
theorem c2_resolve_then_check_amended (r : DNSResolver) (now : Nat)
    (domain : String) (upstream : Except ResolveError (List IpAddr))
    (ips : List IpAddr) (httl : 0 < r.ttl)
    (hres : (resolve_domain r now domain upstream).1 = .ok ips)
    (hne : ips ≠ []) :
    check_cache (resolve_domain r now domain upstream).2 now domain =
      some ips := by
  cases h : check_cache (cleanup_expired_records r now) now domain with
  | some ip =>
      have heq : resolve_domain r now domain upstream =
          (.ok ip, cleanup_expired_records r now) := by
        simp [resolve_domain, h]
      rw [heq] at hres ⊢
      simp only at hres ⊢
      injection hres with h2
      rw [h, h2]
  | none =>
      cases upstream with
      | error e =>
          have heq : resolve_domain r now domain (.error e) =
              (.error e, cleanup_expired_records r now) := by
            simp [resolve_domain, h]
          rw [heq] at hres
          exact absurd hres (by simp)
      | ok l =>
          cases l with
          | nil =>
              have heq : resolve_domain r now domain (.ok []) =
                  (.ok [], cleanup_expired_records r now) := by
                simp [resolve_domain, h]
              rw [heq] at hres
              simp only at hres
              injection hres with h2
              exact absurd h2.symm hne
          | cons a t =>
              have heq : resolve_domain r now domain (.ok (a :: t)) =
                  (.ok (a :: t),
                    update_cache (cleanup_expired_records r now) now domain
                      (a :: t)) := by
                simp [resolve_domain, h]
              rw [heq] at hres ⊢
              simp only at hres ⊢
              injection hres with h2
              subst h2
              simp [check_cache, update_cache, cleanup_expired_records]
              omega

/-- Witness for C2 amended: empty cache, upstream answers `[127.0.0.1]`,
check at the same instant returns it. -/
theorem c2_resolve_then_check_amended_witness :
    check_cache (resolve_domain emptyResolver 0 "x" (.ok [ip127])).2 0 "x" =
      some [ip127] :=
  c2_resolve_then_check_amended emptyResolver 0 "x" (.ok [ip127]) [ip127]
    (by decide) rfl (by decide)

/-- C6 counterexample: on a failing upstream lookup, `resolve_domain`
still removes expired entries.  With a record for `"a"` expired at the
call instant and a failing resolution for `"b"`, the call returns the
error but the entry for `"a"` is gone afterwards — so "no entry is ...
removed for any key as part of that failing call" is false. -/
theorem c6_upstream_failure_counterexample :
    (resolve_domain staleResolver 5 "b" (.error "lookup failed")).1 =
      .error "lookup failed" ∧
    staleResolver.records "a" = some { ip := [ip127], valid_until := 5 } ∧
    (resolve_domain staleResolver 5 "b" (.error "lookup failed")).2.records
      "a" = none := by
  refine ⟨rfl, rfl, ?_⟩
  decide

/-- C6 amended: on upstream failure `resolve_domain` returns the error and
the only state change is the unconditional initial `cleanup_expired_records`
sweep: the final state is exactly the swept state, nothing is written or
refreshed (every surviving record was already there), and every unexpired
record survives unchanged. -/
theorem c6_upstream_failure_amended (r : DNSResolver) (now : Nat)
    (domain : String) (e : ResolveError) :
    (resolve_domain r now domain (.error e)).2 =
      cleanup_expired_records r now ∧
    (∀ k rec, (cleanup_expired_records r now).records k = some rec →
      r.records k = some rec) ∧
    (∀ k rec, r.records k = some rec → now < rec.valid_until →
      (cleanup_expired_records r now).records k = some rec) ∧
    (check_cache (cleanup_expired_records r now) now domain = none →
      (resolve_domain r now domain (.error e)).1 = .error e) := by
  refine ⟨?_, ?_, ?_, ?_⟩
  · cases h : check_cache (cleanup_expired_records r now) now domain with
    | some ip => simp [resolve_domain, h]
    | none => simp [resolve_domain, h]
  · intro k rec h
    simp only [cleanup_expired_records] at h
    cases hk : r.records k with
    | none => rw [hk] at h; exact Option.noConfusion h
    | some rec' =>
        rw [hk] at h
        dsimp only at h
        by_cases hv : now < rec'.valid_until
        · rw [if_pos hv] at h
          injection h with h2
          subst h2
          rfl
        · rw [if_neg hv] at h
          exact Option.noConfusion h
  · intro k rec h hv
    simp only [cleanup_expired_records]
    rw [h]
    dsimp only
    rw [if_pos hv]
  · intro h
    simp [resolve_domain, h]

/-- Witness for C6 amended at a concrete input: failing upstream on an
empty cache returns the error. -/
theorem c6_upstream_failure_amended_witness :
    (resolve_domain emptyResolver 0 "x" (.error "boom")).1 = .error "boom" :=
  (c6_upstream_failure_amended emptyResolver 0 "x" "boom").2.2.2 (by decide)

/-- C7: under the precondition that `update_cache` is only ever called
with a non-empty address list, every record in the map holds at least one
address and `check_cache` never returns `some []`; the invariant is
preserved by `update_cache` (with a non-empty list), by
`cleanup_expired_records`, and by `resolve_domain` (which itself only
calls `update_cache` on non-empty results); `check_cache` does not mutate
the state at all in this embedding. -/
theorem c7_nonempty_invariant (r : DNSResolver) (now : Nat)
    (domain : String) (upstream : Except ResolveError (List IpAddr))
    (hinv : CacheNonempty r) :
    (∀ ip, ip ≠ [] → CacheNonempty (update_cache r now domain ip)) ∧
    CacheNonempty (cleanup_expired_records r now) ∧
    check_cache r now domain ≠ some [] ∧
    CacheNonempty (resolve_domain r now domain upstream).2 := by
  refine ⟨fun ip hip => cacheNonempty_update_cache r now domain ip hip hinv,
    cacheNonempty_cleanup r now hinv,
    check_cache_ne_some_nil r now domain hinv, ?_⟩
  have h1 : CacheNonempty (cleanup_expired_records r now) :=
    cacheNonempty_cleanup r now hinv
  cases h : check_cache (cleanup_expired_records r now) now domain with
  | some ip => simpa [resolve_domain, h] using h1
  | none =>
      cases upstream with
      | error e => simpa [resolve_domain, h] using h1
      | ok l =>
          cases l with
          | nil => simpa [resolve_domain, h] using h1
          | cons a t =>
              have : CacheNonempty
                  (update_cache (cleanup_expired_records r now) now domain
                    (a :: t)) :=
                cacheNonempty_update_cache _ now domain (a :: t)
                  (by simp) h1
              simpa [resolve_domain, h] using this

/-- Witness for C7 at a concrete input: starting from the empty cache and
a non-empty upstream answer, the state after `resolve_domain` satisfies
the invariant. -/
theorem c7_nonempty_invariant_witness :
    CacheNonempty (resolve_domain emptyResolver 0 "x" (.ok [ip127])).2 :=
  (c7_nonempty_invariant emptyResolver 0 "x" (.ok [ip127])
    (fun _ _ h => Option.noConfusion h)).2.2.2

/-- C8: once `ttl` has elapsed past the last successful `update_cache`
for a name — the current instant is at or past the expiry of the record —
`check_cache` returns nothing; and `cleanup_expired_records` removes
exactly the records with `valid_until ≤ now` and keeps exactly those with
`now < valid_until`. -/
theorem c8_expiry_semantics (r : DNSResolver) (t now : Nat)
    (domain k : String) (ip : List IpAddr) (rec : DNSRecord) :
    (t + r.ttl ≤ now →
      check_cache (update_cache r t domain ip) now domain = none) ∧
    (r.records k = some rec → rec.valid_until ≤ now →
      check_cache r now k = none) ∧
    (r.records k = some rec →
      (cleanup_expired_records r now).records k =
        if now < rec.valid_until then some rec else none) ∧
    (r.records k = none → (cleanup_expired_records r now).records k = none) := by
  refine ⟨?_, ?_, ?_, ?_⟩
  · intro h
    simp only [check_cache, update_cache]
    rw [if_pos trivial]
    dsimp only
    rw [if_neg (by omega)]
  · intro hk hv
    simp only [check_cache]
    rw [hk]
    dsimp only
    rw [if_neg (by omega)]
  · intro hk
    simp only [cleanup_expired_records]
    rw [hk]
  · intro hk
    simp only [cleanup_expired_records]
    rw [hk]

/-- Witness for C8 at a concrete input: after updating at instant 0 with
TTL 10, checking at instant 10 misses. -/
theorem c8_expiry_semantics_witness :
    check_cache (update_cache emptyResolver 0 "x" [ip127]) 10 "x" = none :=
  (c8_expiry_semantics emptyResolver 0 10 "x" "x" [ip127]
    { ip := [ip127], valid_until := 10 }).1 (by decide)

/-- C3 counterexample: a first read of the single byte `0xFF` is not
valid UTF-8, yet in CONNECT mode the handler does not terminate with a
`protocolError` — the `.unwrap()` on `str::from_utf8` panics the task
instead (no outbound connection is attempted either way). -/
theorem c3_parse_failure_counterexample :
    utf8Decode [255] = none ∧
    handle_http_connect [255] true true = ([], .error .panicked) ∧
    TunnelError.panicked ≠ TunnelError.protocolError :=
  ⟨rfl, rfl, by decide⟩

/-- C3 amended: a first read that does not parse to a target address
terminates the handler without any outbound connection attempt (the
action trace is empty); in raw mode both invalid UTF-8 and an
unparseable address string yield a `protocolError`, and in CONNECT mode a
first line with fewer than two whitespace-delimited tokens yields a
`protocolError`, while invalid UTF-8 terminates the CONNECT handler by
panic rather than with a `protocolError`. -/
theorem c3_parse_failure_no_dial_amended (firstRead : List Nat)
    (dialOk relayOk : Bool) :
    (utf8Decode firstRead = none →
      handle_tcp firstRead dialOk relayOk = ([], .error .protocolError)) ∧
    (∀ cs, firstRead ≠ [] → utf8Decode firstRead = some cs →
      parseSocketAddr cs = none →
      handle_tcp firstRead dialOk relayOk = ([], .error .protocolError)) ∧
    (∀ cs, utf8Decode firstRead = some cs →
      parse_http_connect_request cs = none →
      handle_http_connect firstRead dialOk relayOk =
        ([], .error .protocolError)) ∧
    (utf8Decode firstRead = none →
      handle_http_connect firstRead dialOk relayOk =
        ([], .error .panicked)) := by
  refine ⟨?_, ?_, ?_, ?_⟩
  · intro h
    cases firstRead with
    | nil => exact Option.noConfusion h
    | cons b rest => simp [handle_tcp, h]
  · intro cs hne h1 h2
    cases firstRead with
    | nil => exact absurd rfl hne
    | cons b rest => simp [handle_tcp, h1, h2]
  · intro cs h1 h2
    simp [handle_http_connect, h1, h2]
  · intro h
    simp [handle_http_connect, h]

/-- Witness for C3 amended: the raw-mode first read `"x"` decodes but is
not a socket address, so the handler ends in `protocolError` with no dial
attempt. -/
theorem c3_parse_failure_no_dial_amended_witness :
    handle_tcp (strBytes "x") true true = ([], .error .protocolError) :=
  (c3_parse_failure_no_dial_amended (strBytes "x") true true).2.1
    ("x".data) (by decide) rfl rfl

/-- C4: in CONNECT mode the handler writes exactly
`HTTP/1.1 200 Connection Established\r\n\r\n` if and only if the outbound
dial succeeded, strictly after the dial attempt and before the relay (the
success trace is dial, write, relay); on dial failure the trace is the
dial attempt alone — nothing is written back — and the handler returns a
`dialError`, dropping the connection; when no target parses, nothing at
all is dialed or written. -/
theorem c4_connect_response_iff_dial (firstRead : List Nat)
    (dialOk relayOk : Bool) :
    (∀ target, connectTarget firstRead = some target →
      (dialOk = true →
        handle_http_connect firstRead dialOk relayOk =
          ([.dial target, .writeClient http200Response, .relay],
            if relayOk then .ok () else .error .relayError)) ∧
      (dialOk = false →
        handle_http_connect firstRead dialOk relayOk =
          ([.dial target], .error .dialError))) ∧
    (connectTarget firstRead = none →
      (handle_http_connect firstRead dialOk relayOk).1 = []) := by
  constructor
  · intro target htarget
    simp only [connectTarget] at htarget
    cases hdec : utf8Decode firstRead with
    | none => rw [hdec] at htarget; exact Option.noConfusion htarget
    | some cs =>
        rw [hdec] at htarget
        dsimp only at htarget
        constructor
        · intro hd
          subst hd
          simp [handle_http_connect, hdec, htarget]
        · intro hd
          subst hd
          simp [handle_http_connect, hdec, htarget]
  · intro htarget
    simp only [connectTarget] at htarget
    cases hdec : utf8Decode firstRead with
    | none => simp [handle_http_connect, hdec]
    | some cs =>
        rw [hdec] at htarget
        dsimp only at htarget
        simp [handle_http_connect, hdec, htarget]

/-- Witness for C4 at a concrete CONNECT request: the dial succeeds and
the trace is exactly dial, 200-response write, relay. -/
theorem c4_connect_response_iff_dial_witness :
    handle_http_connect
        (strBytes "CONNECT example.com:443 HTTP/1.1\r\n\r\n") true true =
      ([.dial "example.com:443", .writeClient http200Response, .relay],
        .ok ()) := by
  have h :=
    ((c4_connect_response_iff_dial
        (strBytes "CONNECT example.com:443 HTTP/1.1\r\n\r\n") true true).1
      "example.com:443" rfl).1 rfl
  simpa using h

/-- C5 counterexample: a zero-byte first read in CONNECT mode does not
terminate the handler successfully — `handle_http_connect` has no
`n == 0` early return, the empty string parses to no target, and the
handler ends in `protocolError`. -/
theorem c5_empty_first_read_counterexample :
    handle_http_connect [] true true = ([], .error .protocolError) ∧
    (handle_http_connect [] true true).2 ≠ .ok () :=
  ⟨rfl, by decide⟩

/-- C5 amended: a zero-byte first read terminates `handle_tcp`
successfully with no parsing, dialing or writing; in CONNECT mode
`handle_http_connect` also parses, dials and writes nothing, but
terminates with a `protocolError` instead of success. -/
theorem c5_empty_first_read_amended (dialOk relayOk : Bool) :
    handle_tcp [] dialOk relayOk = ([], .ok ()) ∧
    handle_http_connect [] dialOk relayOk = ([], .error .protocolError) :=
  ⟨rfl, rfl⟩

/-- C9: the raw-mode handler feeds the entire first read, untrimmed, to
the socket-address parse, so the documented newline-terminated wire form
fails: `"127.0.0.1:4444\n"` (the exact shape the repository test
`test_tcp_tunnel` sends) parses to no target and `handle_tcp` ends in
`protocolError` without dialing, while the same bytes without the
newline parse and are dialed. -/
theorem c9_newline_terminated_pdu :
    rawTarget (strBytes "127.0.0.1:4444\n") = none ∧
    handle_tcp (strBytes "127.0.0.1:4444\n") true true =
      ([], .error .protocolError) ∧
    rawTarget (strBytes "127.0.0.1:4444") =
      some (.v4 ⟨⟨127, 0, 0, 1⟩, 4444⟩) ∧
    handle_tcp (strBytes "127.0.0.1:4444") true true =
      ([.dial (.v4 ⟨⟨127, 0, 0, 1⟩, 4444⟩), .relay], .ok ()) :=
  ⟨rfl, rfl, rfl, rfl⟩
